import Mathlib

/-
Verification of the cohort-identifier migration-analysis engine, embedded
shallowly from the TypeScript source (analysis module, most-complete
configuration).  Repository records are flat string-valued rows parsed
from CSV; the engine computes a migration weight, a reason list, a cohort
label, a summary sentence and per-cohort aggregates.
-/

namespace CohortIdentifier

/-- Input row of the analysis: every field of the `RepositoryAnalysis`
CSV row used by the analysis module, all string-valued (field names with
dashes in the source are written with underscores here). -/
structure RepositoryAnalysis where
  Repo_Name : String
  Org_Name : String
  Enterprise : String
  app_installations : String
  git_lfs_objects : String
  repository_packages : String
  projects_linked_to_repo : String
  issues_linked_to_projects : String
  repository_custom_properties : String
  repository_rulesets : String
  repository_actions_secrets : String
  repository_dependabot_secrets : String
  repository_environments : String
  repository_actions_self_hosted_runners : String
  repository_webhooks : String
  repository_discussions : String
  repository_deploy_keys : String
  repository_pages_customdomain : String
  repository_releases_gt_5gb : String
  isArchived : String
  has_external_collaborators : String
  has_unmigratable : String
  has_maven_packages : String
  maven_package_count : String
  has_codespaces : String
  codespace_count : String
  codespace_user_count : String
  has_macos_runners : String
deriving Repr, DecidableEq

/-- Weight values for the different migration blockers (CONFIG.WEIGHTS). -/
structure Weights where
  APP_INSTALLATIONS : Int
  GIT_LFS_OBJECTS : Int
  PACKAGES : Int
  PROJECTS : Int
  CUSTOM_PROPERTIES : Int
  RULESETS : Int
  SECRETS : Int
  ENVIRONMENTS : Int
  SELF_HOSTED_RUNNERS : Int
  WEBHOOKS : Int
  DISCUSSIONS : Int
  DEPLOY_KEYS : Int
  PAGES_CUSTOM_DOMAIN : Int
  RELEASES_LARGE : Int
  CODESPACES : Int
  MAVEN_PACKAGES : Int
  MACOS_RUNNERS : Int
  IS_ARCHIVED : Int
  EXTERNAL_COLLABORATORS : Int
  UNMIGRATABLE : Int
deriving Repr, DecidableEq

/-- Thresholds for cohort assignment (CONFIG.THRESHOLDS). -/
structure Thresholds where
  CLEAN_REPO_MAX_WEIGHT : Int
  LOW_COMPLEXITY_MAX_WEIGHT : Int
  MEDIUM_COMPLEXITY_MAX_WEIGHT : Int
deriving Repr, DecidableEq

/-- Feature toggles of the analysis (CONFIG.FEATURES). -/
structure Features where
  INCLUDE_ARCHIVED_IN_MAIN_ANALYSIS : Bool
  SEPARATE_MAVEN_COHORT : Bool
  SEPARATE_CODESPACE_COHORT : Bool
  SEPARATE_MACOS_COHORT : Bool
  SEPARATE_UNMIGRATABLE_COHORT : Bool
deriving Repr, DecidableEq

/-- Configuration for migration analysis weights and thresholds (CONFIG). -/
structure Config where
  WEIGHTS : Weights
  THRESHOLDS : Thresholds
  FEATURES : Features
deriving Repr, DecidableEq

/-- The configuration value of the analysis module, field for field. -/
def CONFIG : Config where
  WEIGHTS :=
    { APP_INSTALLATIONS := 15
      GIT_LFS_OBJECTS := 2
      PACKAGES := 3
      PROJECTS := 3
      CUSTOM_PROPERTIES := 2
      RULESETS := 3
      SECRETS := 12
      ENVIRONMENTS := 3
      SELF_HOSTED_RUNNERS := 12
      WEBHOOKS := 10
      DISCUSSIONS := 2
      DEPLOY_KEYS := 8
      PAGES_CUSTOM_DOMAIN := 2
      RELEASES_LARGE := 7
      CODESPACES := 25
      MAVEN_PACKAGES := 25
      MACOS_RUNNERS := 25
      IS_ARCHIVED := 1
      EXTERNAL_COLLABORATORS := 12
      UNMIGRATABLE := 30 }
  THRESHOLDS :=
    { CLEAN_REPO_MAX_WEIGHT := 0
      LOW_COMPLEXITY_MAX_WEIGHT := 10
      MEDIUM_COMPLEXITY_MAX_WEIGHT := 25 }
  FEATURES :=
    { INCLUDE_ARCHIVED_IN_MAIN_ANALYSIS := false
      SEPARATE_MAVEN_COHORT := true
      SEPARATE_CODESPACE_COHORT := true
      SEPARATE_MACOS_COHORT := true
      SEPARATE_UNMIGRATABLE_COHORT := false }

/-- Model of JavaScript String.prototype.trim, written over the character
list so that it reduces in the kernel. -/
def jsTrim (s : String) : String :=
  String.mk (((s.toList.dropWhile Char.isWhitespace).reverse.dropWhile
    Char.isWhitespace).reverse)

/-- Model of JavaScript parseInt(value, 10): skip leading whitespace, read
an optional sign and then the longest prefix of decimal digits; none when
no digit is found (parseInt returns NaN there). -/
def parseInt10 (s : String) : Option Int :=
  let cs := s.toList.dropWhile Char.isWhitespace
  let signDigits : Int × List Char :=
    match cs with
    | '-' :: t => (-1, t)
    | '+' :: t => (1, t)
    | t => (1, t)
  let digits := signDigits.2.takeWhile Char.isDigit
  if digits.isEmpty then none
  else some (signDigits.1 *
    (digits.foldl (fun acc c => acc * 10 + (c.toNat - '0'.toNat)) 0 : Nat))

/-- Check if a repository is archived (function isArchived of the source;
note its truthy set has no "yes"/"YES" spelling). -/
def isArchived (repo : RepositoryAnalysis) : Bool :=
  repo.isArchived = "true" || repo.isArchived = "TRUE" || repo.isArchived = "1"

/-- Convert string values to numbers, handling empty strings and
non-numeric values (function toNumber of the source). -/
def toNumber (value : String) : Int :=
  if value = "" ∨ jsTrim value = "" ∨ value = "null" ∨ value = "undefined" then 0
  else
    match parseInt10 value with
    | none => 0
    | some num => num

/-- Convert string boolean values to boolean (function toBoolean). -/
def toBoolean (value : String) : Bool :=
  value = "true" || value = "TRUE" || value = "1" || value = "yes" ||
    value = "YES"

/-- Calculate migration weight based on repository features (function
calculateMigrationWeight): each blocker check adds its configured weight
to the running total. -/
def calculateMigrationWeight (repo : RepositoryAnalysis) : Int :=
  let weight : Int := 0
  let weight := if toNumber repo.app_installations > 0 then
    weight + CONFIG.WEIGHTS.APP_INSTALLATIONS else weight
  let weight := if toNumber repo.git_lfs_objects > 0 then
    weight + CONFIG.WEIGHTS.GIT_LFS_OBJECTS else weight
  let weight := if toNumber repo.repository_packages > 0 then
    weight + CONFIG.WEIGHTS.PACKAGES else weight
  let weight := if toNumber repo.projects_linked_to_repo > 0 ∨
      toNumber repo.issues_linked_to_projects > 0 then
    weight + CONFIG.WEIGHTS.PROJECTS else weight
  let weight := if toNumber repo.repository_custom_properties > 0 then
    weight + CONFIG.WEIGHTS.CUSTOM_PROPERTIES else weight
  let weight := if toNumber repo.repository_rulesets > 0 then
    weight + CONFIG.WEIGHTS.RULESETS else weight
  let weight := if toNumber repo.repository_actions_secrets > 0 ∨
      toNumber repo.repository_dependabot_secrets > 0 then
    weight + CONFIG.WEIGHTS.SECRETS else weight
  let weight := if toNumber repo.repository_environments > 0 then
    weight + CONFIG.WEIGHTS.ENVIRONMENTS else weight
  let weight := if toNumber repo.repository_actions_self_hosted_runners > 0 then
    weight + CONFIG.WEIGHTS.SELF_HOSTED_RUNNERS else weight
  let weight := if toNumber repo.repository_webhooks > 0 then
    weight + CONFIG.WEIGHTS.WEBHOOKS else weight
  let weight := if toNumber repo.repository_discussions > 0 then
    weight + CONFIG.WEIGHTS.DISCUSSIONS else weight
  let weight := if toNumber repo.repository_deploy_keys > 0 then
    weight + CONFIG.WEIGHTS.DEPLOY_KEYS else weight
  let weight := if toNumber repo.repository_pages_customdomain > 0 then
    weight + CONFIG.WEIGHTS.PAGES_CUSTOM_DOMAIN else weight
  let weight := if toNumber repo.repository_releases_gt_5gb > 0 then
    weight + CONFIG.WEIGHTS.RELEASES_LARGE else weight
  let weight := if isArchived repo then
    weight + CONFIG.WEIGHTS.IS_ARCHIVED else weight
  let weight := if toBoolean repo.has_external_collaborators then
    weight + CONFIG.WEIGHTS.EXTERNAL_COLLABORATORS else weight
  let weight := if toBoolean repo.has_unmigratable then
    weight + CONFIG.WEIGHTS.UNMIGRATABLE else weight
  weight

/-- Get detailed reasons for migration complexity (function
getMigrationReasons): each sequential conditional push of the source is
one optional singleton of this concatenation, in source order. -/
def getMigrationReasons (repo : RepositoryAnalysis) : List String :=
  (if toNumber repo.app_installations > 0 then
    ["App installations (" ++ repo.app_installations ++ ")"] else [])
  ++ (if toNumber repo.git_lfs_objects > 0 then
    ["Git LFS objects (" ++ repo.git_lfs_objects ++ ")"] else [])
  ++ (if toNumber repo.repository_packages > 0 then
    ["Repository packages (" ++ repo.repository_packages ++ ")"] else [])
  ++ (if toNumber repo.projects_linked_to_repo > 0 ∨
      toNumber repo.issues_linked_to_projects > 0 then
    ["Projects linked (repo: " ++ repo.projects_linked_to_repo ++
      ", issues: " ++ repo.issues_linked_to_projects ++ ")"] else [])
  ++ (if toNumber repo.repository_custom_properties > 0 then
    ["Custom properties (" ++ repo.repository_custom_properties ++ ")"] else [])
  ++ (if toNumber repo.repository_rulesets > 0 then
    ["Rulesets (" ++ repo.repository_rulesets ++ ")"] else [])
  ++ (if toNumber repo.repository_actions_secrets > 0 ∨
      toNumber repo.repository_dependabot_secrets > 0 then
    ["Secrets (Actions: " ++ repo.repository_actions_secrets ++
      ", Dependabot: " ++ repo.repository_dependabot_secrets ++ ")"] else [])
  ++ (if toNumber repo.repository_environments > 0 then
    ["Environments (" ++ repo.repository_environments ++ ")"] else [])
  ++ (if toNumber repo.repository_actions_self_hosted_runners > 0 then
    ["Self-hosted runners (" ++
      repo.repository_actions_self_hosted_runners ++ ")"] else [])
  ++ (if toNumber repo.repository_webhooks > 0 then
    ["Webhooks (" ++ repo.repository_webhooks ++ ")"] else [])
  ++ (if toNumber repo.repository_discussions > 0 then
    ["Discussions (" ++ repo.repository_discussions ++ ")"] else [])
  ++ (if toNumber repo.repository_deploy_keys > 0 then
    ["Deploy keys (" ++ repo.repository_deploy_keys ++ ")"] else [])
  ++ (if toNumber repo.repository_pages_customdomain > 0 then
    ["Pages custom domain (" ++ repo.repository_pages_customdomain ++ ")"]
    else [])
  ++ (if toNumber repo.repository_releases_gt_5gb > 0 then
    ["Large releases (" ++ repo.repository_releases_gt_5gb ++ ")"] else [])
  ++ (if toBoolean repo.has_maven_packages then
    ["Maven packages (" ++ repo.maven_package_count ++ ")"] else [])
  ++ (if toBoolean repo.has_codespaces then
    ["Codespaces (" ++ repo.codespace_count ++ " codespaces, " ++
      repo.codespace_user_count ++ " users)"] else [])
  ++ (if toBoolean repo.has_macos_runners then ["macOS runners"] else [])
  ++ (if toBoolean repo.has_external_collaborators then
    ["External collaborators"] else [])
  ++ (if toBoolean repo.has_unmigratable then ["Unmigratable features"] else [])
  ++ (if isArchived repo then ["Archived repository"] else [])

/-- Determine cohort assignment based on repository characteristics
(function assignCohort), with the feature-toggle set it reads from the
global CONFIG factored out as an explicit parameter. -/
def assignCohortFeatures (features : Features) (repo : RepositoryAnalysis)
    (migrationWeight : Int) : String :=
  if features.SEPARATE_UNMIGRATABLE_COHORT && toBoolean repo.has_unmigratable
    then "UNMIGRATABLE"
  else if isArchived repo then "ARCHIVED"
  else if features.SEPARATE_MACOS_COHORT && toBoolean repo.has_macos_runners
    then "MACOS_RUNNERS"
  else if features.SEPARATE_MAVEN_COHORT && toBoolean repo.has_maven_packages
    then "MAVEN_PACKAGES"
  else if features.SEPARATE_CODESPACE_COHORT && toBoolean repo.has_codespaces
    then "CODESPACES"
  else if migrationWeight ≤ CONFIG.THRESHOLDS.CLEAN_REPO_MAX_WEIGHT
    then "CLEAN"
  else if migrationWeight ≤ CONFIG.THRESHOLDS.LOW_COMPLEXITY_MAX_WEIGHT
    then "LOW_COMPLEXITY"
  else if migrationWeight ≤ CONFIG.THRESHOLDS.MEDIUM_COMPLEXITY_MAX_WEIGHT
    then "MEDIUM_COMPLEXITY"
  else "HIGH_COMPLEXITY"

/-- The source's assignCohort: the decision list instantiated at the
feature-toggle set of the global CONFIG, exactly as the source reads it. -/
def assignCohort (repo : RepositoryAnalysis) (migrationWeight : Int) : String :=
  assignCohortFeatures CONFIG.FEATURES repo migrationWeight

/-- Generate summary description for cohort assignment (function
generateSummary). -/
def generateSummary (cohort : String) (reasons : List String)
    (weight : Int) : String :=
  if cohort = "UNMIGRATABLE" then
    "Repository has features that cannot be migrated - requires special handling"
  else if cohort = "ARCHIVED" then
    "Archived repository - lower migration priority"
  else if cohort = "CLEAN" then
    "Clean repository with no migration blockers - can migrate easily"
  else if cohort = "MACOS_RUNNERS" then
    "Repository with macOS runners - requires runner migration planning"
  else if cohort = "MAVEN_PACKAGES" then
    "Repository with Maven packages - requires package migration planning"
  else if cohort = "CODESPACES" then
    "Repository with Codespaces usage - requires Codespaces migration planning"
  else if cohort = "LOW_COMPLEXITY" then
    "Low complexity migration (weight: " ++ toString weight ++ ") - " ++
      toString reasons.length ++ " minor issues"
  else if cohort = "MEDIUM_COMPLEXITY" then
    "Medium complexity migration (weight: " ++ toString weight ++ ") - " ++
      toString reasons.length ++ " moderate issues"
  else if cohort = "HIGH_COMPLEXITY" then
    "High complexity migration (weight: " ++ toString weight ++ ") - " ++
      toString reasons.length ++ " major issues"
  else "Migration weight: " ++ toString weight

/-- The record of per-category boolean feature flags returned by
hasFeatureFlags. -/
structure FeatureFlags where
  HAS_APP_INSTALLATIONS : Bool
  HAS_GIT_LFS_OBJECTS : Bool
  HAS_PACKAGES : Bool
  HAS_PROJECTS : Bool
  HAS_CUSTOM_PROPERTIES : Bool
  HAS_RULESETS : Bool
  HAS_SECRETS : Bool
  HAS_ENVIRONMENTS : Bool
  HAS_SELF_HOSTED_RUNNERS : Bool
  HAS_WEBHOOKS : Bool
  HAS_DISCUSSIONS : Bool
  HAS_DEPLOY_KEYS : Bool
  HAS_PAGES_CUSTOM_DOMAIN : Bool
  HAS_RELEASES_LARGE : Bool
  HAS_CODESPACES : Bool
  HAS_MAVEN_PACKAGES : Bool
  HAS_MACOS_RUNNERS : Bool
  HAS_IS_ARCHIVED : Bool
  HAS_EXTERNAL_COLLABORATORS : Bool
  HAS_UNMIGRATABLE : Bool
deriving Repr, DecidableEq

/-- Check if repository has specific feature categories (function
hasFeatureFlags). -/
def hasFeatureFlags (repo : RepositoryAnalysis) : FeatureFlags where
  HAS_APP_INSTALLATIONS := decide (toNumber repo.app_installations > 0)
  HAS_GIT_LFS_OBJECTS := decide (toNumber repo.git_lfs_objects > 0)
  HAS_PACKAGES := decide (toNumber repo.repository_packages > 0)
  HAS_PROJECTS := decide (toNumber repo.projects_linked_to_repo > 0 ∨
    toNumber repo.issues_linked_to_projects > 0)
  HAS_CUSTOM_PROPERTIES := decide (toNumber repo.repository_custom_properties > 0)
  HAS_RULESETS := decide (toNumber repo.repository_rulesets > 0)
  HAS_SECRETS := decide (toNumber repo.repository_actions_secrets > 0 ∨
    toNumber repo.repository_dependabot_secrets > 0)
  HAS_ENVIRONMENTS := decide (toNumber repo.repository_environments > 0)
  HAS_SELF_HOSTED_RUNNERS :=
    decide (toNumber repo.repository_actions_self_hosted_runners > 0)
  HAS_WEBHOOKS := decide (toNumber repo.repository_webhooks > 0)
  HAS_DISCUSSIONS := decide (toNumber repo.repository_discussions > 0)
  HAS_DEPLOY_KEYS := decide (toNumber repo.repository_deploy_keys > 0)
  HAS_PAGES_CUSTOM_DOMAIN :=
    decide (toNumber repo.repository_pages_customdomain > 0)
  HAS_RELEASES_LARGE := decide (toNumber repo.repository_releases_gt_5gb > 0)
  HAS_CODESPACES := toBoolean repo.has_codespaces
  HAS_MAVEN_PACKAGES := toBoolean repo.has_maven_packages
  HAS_MACOS_RUNNERS := toBoolean repo.has_macos_runners
  HAS_IS_ARCHIVED := isArchived repo
  HAS_EXTERNAL_COLLABORATORS := toBoolean repo.has_external_collaborators
  HAS_UNMIGRATABLE := toBoolean repo.has_unmigratable

/-- Count feature gaps (function countFeatureGaps): Maven packages,
Codespaces and macOS runners. -/
def countFeatureGaps (repo : RepositoryAnalysis) : Nat :=
  (if toBoolean repo.has_maven_packages then 1 else 0)
  + (if toBoolean repo.has_codespaces then 1 else 0)
  + (if toBoolean repo.has_macos_runners then 1 else 0)

/-- Simplified per-repository classification result (interface
CohortResult). -/
structure CohortResult where
  repoName : String
  orgName : String
  enterpriseName : String
  cohort : String
  migrationWeight : Int
  reasons : List String
  summary : String
  isArchived : Bool
deriving Repr, DecidableEq

/-- Per-cohort aggregate statistics (interface CohortSummary); the
averageWeight division is modelled over the rationals. -/
structure CohortSummary where
  cohortName : String
  repositoryCount : Nat
  totalWeight : Int
  averageWeight : ℚ
deriving Repr, DecidableEq

/-- The loaded input data (interface LoadedData of the single-file data
module): the list of repository rows. -/
structure LoadedData where
  repositories : List RepositoryAnalysis
deriving Repr, DecidableEq

/-- Analyze repositories and return simplified cohort results (function
analyzeRepositories): one CohortResult per input row, in order. -/
def analyzeRepositories (data : LoadedData) : List CohortResult :=
  data.repositories.map (fun repo =>
    let migrationWeight := calculateMigrationWeight repo
    let migrationReasons := getMigrationReasons repo
    let cohort := assignCohort repo migrationWeight
    let summary := generateSummary cohort migrationReasons migrationWeight
    { repoName := repo.Repo_Name
      orgName := repo.Org_Name
      enterpriseName := repo.Enterprise
      cohort := cohort
      migrationWeight := migrationWeight
      reasons := migrationReasons
      summary := summary
      isArchived := isArchived repo })

/-- Insert one result into the insertion-ordered group list, modelling one
step of the Map-based grouping of generateCohortSummaries (a JavaScript
Map preserves first-insertion key order). -/
def addToGroups (groups : List (String × List CohortResult))
    (r : CohortResult) : List (String × List CohortResult) :=
  match groups with
  | [] => [(r.cohort, [r])]
  | (k, rs) :: rest =>
    if k = r.cohort then (k, rs ++ [r]) :: rest
    else (k, rs) :: addToGroups rest r

/-- Group results by cohort in first-insertion order (the grouping loop of
generateCohortSummaries). -/
def groupByCohort (results : List CohortResult) :
    List (String × List CohortResult) :=
  results.foldl addToGroups []

/-- Summary of one cohort group (the per-group body of
generateCohortSummaries): count, reduce-style weight sum, and guarded
average. -/
def summarizeGroup (g : String × List CohortResult) : CohortSummary :=
  let repositoryCount := g.2.length
  let totalWeight : Int := g.2.foldl (fun sum r => sum + r.migrationWeight) (0 : Int)
  let averageWeight : ℚ :=
    if repositoryCount > 0 then (totalWeight : ℚ) / (repositoryCount : ℚ) else 0
  { cohortName := g.1
    repositoryCount := repositoryCount
    totalWeight := totalWeight
    averageWeight := averageWeight }

/-- Generate summary statistics for each cohort (function
generateCohortSummaries): group by cohort, summarize each group, then
sort by average weight descending (a stable sort, as ECMAScript requires). -/
def generateCohortSummaries (results : List CohortResult) :
    List CohortSummary :=
  ((groupByCohort results).map summarizeGroup).mergeSort
    (fun a b => decide (b.averageWeight ≤ a.averageWeight))

/-- Accumulator step of a guarded running total, rewritten as adding a
guarded contribution. -/
lemma ite_shift (c : Prop) [Decidable c] (x w : Int) :
    (if c then x + w else x) = x + (if c then w else 0) := by
  split <;> simp

/-- A guarded non-negative contribution is non-negative. -/
lemma ite_weight_nonneg (c : Prop) [Decidable c] (w : Int) (h : 0 ≤ w) :
    0 ≤ (if c then w else 0) := by
  split
  · exact h
  · exact le_refl 0

/-- The running total of calculateMigrationWeight equals the sum of the
guarded contributions of its seventeen category checks, in source order. -/
lemma calculateMigrationWeight_eq (repo : RepositoryAnalysis) :
    calculateMigrationWeight repo =
      (if toNumber repo.app_installations > 0 then
        CONFIG.WEIGHTS.APP_INSTALLATIONS else 0)
      + (if toNumber repo.git_lfs_objects > 0 then
        CONFIG.WEIGHTS.GIT_LFS_OBJECTS else 0)
      + (if toNumber repo.repository_packages > 0 then
        CONFIG.WEIGHTS.PACKAGES else 0)
      + (if toNumber repo.projects_linked_to_repo > 0 ∨
          toNumber repo.issues_linked_to_projects > 0 then
        CONFIG.WEIGHTS.PROJECTS else 0)
      + (if toNumber repo.repository_custom_properties > 0 then
        CONFIG.WEIGHTS.CUSTOM_PROPERTIES else 0)
      + (if toNumber repo.repository_rulesets > 0 then
        CONFIG.WEIGHTS.RULESETS else 0)
      + (if toNumber repo.repository_actions_secrets > 0 ∨
          toNumber repo.repository_dependabot_secrets > 0 then
        CONFIG.WEIGHTS.SECRETS else 0)
      + (if toNumber repo.repository_environments > 0 then
        CONFIG.WEIGHTS.ENVIRONMENTS else 0)
      + (if toNumber repo.repository_actions_self_hosted_runners > 0 then
        CONFIG.WEIGHTS.SELF_HOSTED_RUNNERS else 0)
      + (if toNumber repo.repository_webhooks > 0 then
        CONFIG.WEIGHTS.WEBHOOKS else 0)
      + (if toNumber repo.repository_discussions > 0 then
        CONFIG.WEIGHTS.DISCUSSIONS else 0)
      + (if toNumber repo.repository_deploy_keys > 0 then
        CONFIG.WEIGHTS.DEPLOY_KEYS else 0)
      + (if toNumber repo.repository_pages_customdomain > 0 then
        CONFIG.WEIGHTS.PAGES_CUSTOM_DOMAIN else 0)
      + (if toNumber repo.repository_releases_gt_5gb > 0 then
        CONFIG.WEIGHTS.RELEASES_LARGE else 0)
      + (if isArchived repo then CONFIG.WEIGHTS.IS_ARCHIVED else 0)
      + (if toBoolean repo.has_external_collaborators then
        CONFIG.WEIGHTS.EXTERNAL_COLLABORATORS else 0)
      + (if toBoolean repo.has_unmigratable then
        CONFIG.WEIGHTS.UNMIGRATABLE else 0) := by
  simp only [calculateMigrationWeight, ite_shift, zero_add]

/-- A repository row whose every field is the empty string: every count
normalizes to zero and every boolean flag to false. -/
def blankRepo : RepositoryAnalysis where
  Repo_Name := ""
  Org_Name := ""
  Enterprise := ""
  app_installations := ""
  git_lfs_objects := ""
  repository_packages := ""
  projects_linked_to_repo := ""
  issues_linked_to_projects := ""
  repository_custom_properties := ""
  repository_rulesets := ""
  repository_actions_secrets := ""
  repository_dependabot_secrets := ""
  repository_environments := ""
  repository_actions_self_hosted_runners := ""
  repository_webhooks := ""
  repository_discussions := ""
  repository_deploy_keys := ""
  repository_pages_customdomain := ""
  repository_releases_gt_5gb := ""
  isArchived := ""
  has_external_collaborators := ""
  has_unmigratable := ""
  has_maven_packages := ""
  maven_package_count := ""
  has_codespaces := ""
  codespace_count := ""
  codespace_user_count := ""
  has_macos_runners := ""

/-- Weight over the full FeaturePresence enumeration, written from the
specification's words for comparison with the source: the sum of
configured per-category weights over all present categories, including
the three platform-gap categories (Maven packages, Codespaces, macOS
runners). -/
def specFullCategoryWeight (repo : RepositoryAnalysis) : Int :=
  (if toNumber repo.app_installations > 0 then
    CONFIG.WEIGHTS.APP_INSTALLATIONS else 0)
  + (if toNumber repo.git_lfs_objects > 0 then
    CONFIG.WEIGHTS.GIT_LFS_OBJECTS else 0)
  + (if toNumber repo.repository_packages > 0 then
    CONFIG.WEIGHTS.PACKAGES else 0)
  + (if toNumber repo.projects_linked_to_repo > 0 ∨
      toNumber repo.issues_linked_to_projects > 0 then
    CONFIG.WEIGHTS.PROJECTS else 0)
  + (if toNumber repo.repository_custom_properties > 0 then
    CONFIG.WEIGHTS.CUSTOM_PROPERTIES else 0)
  + (if toNumber repo.repository_rulesets > 0 then
    CONFIG.WEIGHTS.RULESETS else 0)
  + (if toNumber repo.repository_actions_secrets > 0 ∨
      toNumber repo.repository_dependabot_secrets > 0 then
    CONFIG.WEIGHTS.SECRETS else 0)
  + (if toNumber repo.repository_environments > 0 then
    CONFIG.WEIGHTS.ENVIRONMENTS else 0)
  + (if toNumber repo.repository_actions_self_hosted_runners > 0 then
    CONFIG.WEIGHTS.SELF_HOSTED_RUNNERS else 0)
  + (if toNumber repo.repository_webhooks > 0 then
    CONFIG.WEIGHTS.WEBHOOKS else 0)
  + (if toNumber repo.repository_discussions > 0 then
    CONFIG.WEIGHTS.DISCUSSIONS else 0)
  + (if toNumber repo.repository_deploy_keys > 0 then
    CONFIG.WEIGHTS.DEPLOY_KEYS else 0)
  + (if toNumber repo.repository_pages_customdomain > 0 then
    CONFIG.WEIGHTS.PAGES_CUSTOM_DOMAIN else 0)
  + (if toNumber repo.repository_releases_gt_5gb > 0 then
    CONFIG.WEIGHTS.RELEASES_LARGE else 0)
  + (if isArchived repo then CONFIG.WEIGHTS.IS_ARCHIVED else 0)
  + (if toBoolean repo.has_external_collaborators then
    CONFIG.WEIGHTS.EXTERNAL_COLLABORATORS else 0)
  + (if toBoolean repo.has_unmigratable then
    CONFIG.WEIGHTS.UNMIGRATABLE else 0)
  + (if toBoolean repo.has_maven_packages then
    CONFIG.WEIGHTS.MAVEN_PACKAGES else 0)
  + (if toBoolean repo.has_codespaces then
    CONFIG.WEIGHTS.CODESPACES else 0)
  + (if toBoolean repo.has_macos_runners then
    CONFIG.WEIGHTS.MACOS_RUNNERS else 0)

/-- A repository row whose only present category is Maven packages. -/
def mavenOnlyRepo : RepositoryAnalysis :=
  { blankRepo with has_maven_packages := "true" }

/-- C1 counterexample: a record whose only present category is the
platform-gap category Maven packages.  The weight claimed by the
specification (the sum over the full category enumeration) is 25 there,
while the computed migration weight is 0: calculateMigrationWeight has no
addend for Maven packages, Codespaces or macOS runners. -/
theorem weight_full_enumeration_counterexample :
    toBoolean mavenOnlyRepo.has_maven_packages = true ∧
      specFullCategoryWeight mavenOnlyRepo = 25 ∧
      calculateMigrationWeight mavenOnlyRepo = 0 := by
  refine ⟨rfl, by decide, by decide⟩

/-- C1 (amended): the computed migration weight equals the sum of the
configured per-category weights over the present categories of the
seventeen non-platform-gap categories; the three platform-gap categories
(Maven packages, Codespaces, macOS runners) contribute nothing: the
weight is invariant under any change of their flags. -/
theorem migration_weight_sum_of_present_categories
    (repo : RepositoryAnalysis) :
    calculateMigrationWeight repo =
      (if toNumber repo.app_installations > 0 then
        CONFIG.WEIGHTS.APP_INSTALLATIONS else 0)
      + (if toNumber repo.git_lfs_objects > 0 then
        CONFIG.WEIGHTS.GIT_LFS_OBJECTS else 0)
      + (if toNumber repo.repository_packages > 0 then
        CONFIG.WEIGHTS.PACKAGES else 0)
      + (if toNumber repo.projects_linked_to_repo > 0 ∨
          toNumber repo.issues_linked_to_projects > 0 then
        CONFIG.WEIGHTS.PROJECTS else 0)
      + (if toNumber repo.repository_custom_properties > 0 then
        CONFIG.WEIGHTS.CUSTOM_PROPERTIES else 0)
      + (if toNumber repo.repository_rulesets > 0 then
        CONFIG.WEIGHTS.RULESETS else 0)
      + (if toNumber repo.repository_actions_secrets > 0 ∨
          toNumber repo.repository_dependabot_secrets > 0 then
        CONFIG.WEIGHTS.SECRETS else 0)
      + (if toNumber repo.repository_environments > 0 then
        CONFIG.WEIGHTS.ENVIRONMENTS else 0)
      + (if toNumber repo.repository_actions_self_hosted_runners > 0 then
        CONFIG.WEIGHTS.SELF_HOSTED_RUNNERS else 0)
      + (if toNumber repo.repository_webhooks > 0 then
        CONFIG.WEIGHTS.WEBHOOKS else 0)
      + (if toNumber repo.repository_discussions > 0 then
        CONFIG.WEIGHTS.DISCUSSIONS else 0)
      + (if toNumber repo.repository_deploy_keys > 0 then
        CONFIG.WEIGHTS.DEPLOY_KEYS else 0)
      + (if toNumber repo.repository_pages_customdomain > 0 then
        CONFIG.WEIGHTS.PAGES_CUSTOM_DOMAIN else 0)
      + (if toNumber repo.repository_releases_gt_5gb > 0 then
        CONFIG.WEIGHTS.RELEASES_LARGE else 0)
      + (if isArchived repo then CONFIG.WEIGHTS.IS_ARCHIVED else 0)
      + (if toBoolean repo.has_external_collaborators then
        CONFIG.WEIGHTS.EXTERNAL_COLLABORATORS else 0)
      + (if toBoolean repo.has_unmigratable then
        CONFIG.WEIGHTS.UNMIGRATABLE else 0) ∧
    ∀ m c mac : String,
      calculateMigrationWeight { repo with
          has_maven_packages := m
          has_codespaces := c
          has_macos_runners := mac } =
        calculateMigrationWeight repo := by
  constructor
  · exact calculateMigrationWeight_eq repo
  · intro m c mac
    rw [calculateMigrationWeight_eq, calculateMigrationWeight_eq]
    rfl

/-- A repository row whose only present category is the unmigratable
flag. -/
def unmigratableOnlyRepo : RepositoryAnalysis :=
  { blankRepo with has_unmigratable := "true" }

/-- C2 counterexample: under the shipped configuration the unmigratable
toggle is disabled, so a record whose unmigratable flag is present is not
assigned UNMIGRATABLE: with its computed weight of 30 it falls through
the whole decision list to HIGH_COMPLEXITY. -/
theorem unmigratable_toggle_counterexample :
    toBoolean unmigratableOnlyRepo.has_unmigratable = true ∧
      calculateMigrationWeight unmigratableOnlyRepo = 30 ∧
      assignCohort unmigratableOnlyRepo
        (calculateMigrationWeight unmigratableOnlyRepo) = "HIGH_COMPLEXITY" := by
  refine ⟨rfl, by decide, by decide⟩

/-- C2 (amended): the unmigratable step is the first of the decision list
and, whenever the unmigratable toggle is enabled, any record whose
unmigratable flag is present is assigned UNMIGRATABLE; but the shipped
configuration disables that toggle (SEPARATE_UNMIGRATABLE_COHORT is
false), so under CONFIG the step never fires. -/
theorem unmigratable_first_when_toggle_enabled :
    CONFIG.FEATURES.SEPARATE_UNMIGRATABLE_COHORT = false ∧
    ∀ (features : Features) (repo : RepositoryAnalysis) (w : Int),
      features.SEPARATE_UNMIGRATABLE_COHORT = true →
      toBoolean repo.has_unmigratable = true →
      assignCohortFeatures features repo w = "UNMIGRATABLE" := by
  refine ⟨rfl, ?_⟩
  intro features repo w htoggle hflag
  simp [assignCohortFeatures, htoggle, hflag]

/-- C2 witness: the amended theorem applied at the shipped toggles with
the unmigratable toggle switched on, the unmigratable-only record and
weight 30. -/
theorem unmigratable_first_when_toggle_enabled_witness :
    assignCohortFeatures
      { CONFIG.FEATURES with SEPARATE_UNMIGRATABLE_COHORT := true }
      unmigratableOnlyRepo 30 = "UNMIGRATABLE" :=
  unmigratable_first_when_toggle_enabled.2
    { CONFIG.FEATURES with SEPARATE_UNMIGRATABLE_COHORT := true }
    unmigratableOnlyRepo 30 rfl rfl

/-- Number of present categories of a feature-flag record: one per true
HAS_ flag, listed in the emission order of getMigrationReasons. -/
def presentCategoryCount (f : FeatureFlags) : Nat :=
  (if f.HAS_APP_INSTALLATIONS then 1 else 0)
  + (if f.HAS_GIT_LFS_OBJECTS then 1 else 0)
  + (if f.HAS_PACKAGES then 1 else 0)
  + (if f.HAS_PROJECTS then 1 else 0)
  + (if f.HAS_CUSTOM_PROPERTIES then 1 else 0)
  + (if f.HAS_RULESETS then 1 else 0)
  + (if f.HAS_SECRETS then 1 else 0)
  + (if f.HAS_ENVIRONMENTS then 1 else 0)
  + (if f.HAS_SELF_HOSTED_RUNNERS then 1 else 0)
  + (if f.HAS_WEBHOOKS then 1 else 0)
  + (if f.HAS_DISCUSSIONS then 1 else 0)
  + (if f.HAS_DEPLOY_KEYS then 1 else 0)
  + (if f.HAS_PAGES_CUSTOM_DOMAIN then 1 else 0)
  + (if f.HAS_RELEASES_LARGE then 1 else 0)
  + (if f.HAS_MAVEN_PACKAGES then 1 else 0)
  + (if f.HAS_CODESPACES then 1 else 0)
  + (if f.HAS_MACOS_RUNNERS then 1 else 0)
  + (if f.HAS_EXTERNAL_COLLABORATORS then 1 else 0)
  + (if f.HAS_UNMIGRATABLE then 1 else 0)
  + (if f.HAS_IS_ARCHIVED then 1 else 0)

/-- Weight read off a feature-flag record: the configured weight of every
true HAS_ flag among the seventeen categories the weight calculator
checks, in the calculator's order. -/
def weightFromFlags (f : FeatureFlags) : Int :=
  (if f.HAS_APP_INSTALLATIONS then CONFIG.WEIGHTS.APP_INSTALLATIONS else 0)
  + (if f.HAS_GIT_LFS_OBJECTS then CONFIG.WEIGHTS.GIT_LFS_OBJECTS else 0)
  + (if f.HAS_PACKAGES then CONFIG.WEIGHTS.PACKAGES else 0)
  + (if f.HAS_PROJECTS then CONFIG.WEIGHTS.PROJECTS else 0)
  + (if f.HAS_CUSTOM_PROPERTIES then CONFIG.WEIGHTS.CUSTOM_PROPERTIES else 0)
  + (if f.HAS_RULESETS then CONFIG.WEIGHTS.RULESETS else 0)
  + (if f.HAS_SECRETS then CONFIG.WEIGHTS.SECRETS else 0)
  + (if f.HAS_ENVIRONMENTS then CONFIG.WEIGHTS.ENVIRONMENTS else 0)
  + (if f.HAS_SELF_HOSTED_RUNNERS then
    CONFIG.WEIGHTS.SELF_HOSTED_RUNNERS else 0)
  + (if f.HAS_WEBHOOKS then CONFIG.WEIGHTS.WEBHOOKS else 0)
  + (if f.HAS_DISCUSSIONS then CONFIG.WEIGHTS.DISCUSSIONS else 0)
  + (if f.HAS_DEPLOY_KEYS then CONFIG.WEIGHTS.DEPLOY_KEYS else 0)
  + (if f.HAS_PAGES_CUSTOM_DOMAIN then
    CONFIG.WEIGHTS.PAGES_CUSTOM_DOMAIN else 0)
  + (if f.HAS_RELEASES_LARGE then CONFIG.WEIGHTS.RELEASES_LARGE else 0)
  + (if f.HAS_IS_ARCHIVED then CONFIG.WEIGHTS.IS_ARCHIVED else 0)
  + (if f.HAS_EXTERNAL_COLLABORATORS then
    CONFIG.WEIGHTS.EXTERNAL_COLLABORATORS else 0)
  + (if f.HAS_UNMIGRATABLE then CONFIG.WEIGHTS.UNMIGRATABLE else 0)

/-- C3: the reason list has exactly one entry per present category (per
true HAS_ flag of the hasFeatureFlags record), independent of the chosen
cohort, and the weight calculator determines presence identically: the
migration weight is a function of that same flag record. -/
theorem reason_count_matches_present_categories (repo : RepositoryAnalysis) :
    (getMigrationReasons repo).length =
      presentCategoryCount (hasFeatureFlags repo) ∧
    calculateMigrationWeight repo = weightFromFlags (hasFeatureFlags repo) := by
  constructor
  · simp only [getMigrationReasons, presentCategoryCount, hasFeatureFlags,
      List.length_append, apply_ite List.length, List.length_singleton,
      List.length_nil, decide_eq_true_eq]
  · rw [calculateMigrationWeight_eq]
    simp only [weightFromFlags, hasFeatureFlags, decide_eq_true_eq]

/-- C4: when no categorical step of the decision list fires, a migration
weight exactly equal to the low-complexity maximum threshold is assigned
LOW_COMPLEXITY, and that threshold plus one is assigned
MEDIUM_COMPLEXITY. -/
theorem threshold_boundary_low_medium (repo : RepositoryAnalysis)
    (_hu : toBoolean repo.has_unmigratable = false)
    (ha : isArchived repo = false)
    (hm : toBoolean repo.has_macos_runners = false)
    (hv : toBoolean repo.has_maven_packages = false)
    (hc : toBoolean repo.has_codespaces = false) :
    assignCohort repo CONFIG.THRESHOLDS.LOW_COMPLEXITY_MAX_WEIGHT =
      "LOW_COMPLEXITY" ∧
    assignCohort repo (CONFIG.THRESHOLDS.LOW_COMPLEXITY_MAX_WEIGHT + 1) =
      "MEDIUM_COMPLEXITY" := by
  constructor <;>
    simp [assignCohort, assignCohortFeatures, CONFIG, ha, hm, hv, hc]

/-- C4 witness: the boundary theorem applied at the all-blank record,
whose flags are all absent; the low-complexity threshold is 10. -/
theorem threshold_boundary_low_medium_witness :
    assignCohort blankRepo 10 = "LOW_COMPLEXITY" ∧
      assignCohort blankRepo 11 = "MEDIUM_COMPLEXITY" :=
  threshold_boundary_low_medium blankRepo rfl rfl rfl rfl rfl

/-- C5: a record with both the archived flag and the macOS-runner flag
present is assigned ARCHIVED and never MACOS_RUNNERS, whatever its
weight: the archived step precedes the macOS-runner step. -/
theorem archived_precedes_macos_runners (repo : RepositoryAnalysis)
    (w : Int) (ha : isArchived repo = true)
    (_hm : toBoolean repo.has_macos_runners = true) :
    assignCohort repo w = "ARCHIVED" ∧
      assignCohort repo w ≠ "MACOS_RUNNERS" := by
  have h : assignCohort repo w = "ARCHIVED" := by
    simp [assignCohort, assignCohortFeatures, CONFIG, ha]
  exact ⟨h, by rw [h]; decide⟩

/-- A record that is archived and has macOS runners at the same time. -/
def archivedMacosRepo : RepositoryAnalysis :=
  { blankRepo with
      isArchived := "true"
      has_macos_runners := "true" }

/-- C5 witness: the precedence theorem applied at a concrete record that
is both archived and flagged for macOS runners, at weight 26. -/
theorem archived_precedes_macos_runners_witness :
    assignCohort archivedMacosRepo 26 = "ARCHIVED" ∧
      assignCohort archivedMacosRepo 26 ≠ "MACOS_RUNNERS" :=
  archived_precedes_macos_runners archivedMacosRepo 26 rfl rfl

/-- Total repository count held in an insertion-ordered group list. -/
def groupsLen (gs : List (String × List CohortResult)) : Nat :=
  (gs.map (fun g => g.2.length)).sum

/-- Total migration weight held in an insertion-ordered group list. -/
def groupsWeight (gs : List (String × List CohortResult)) : Int :=
  (gs.map (fun g => (g.2.map CohortResult.migrationWeight).sum)).sum

/-- The reduce-style weight sum of summarizeGroup equals the mapped list
sum. -/
lemma foldl_add_migrationWeight (l : List CohortResult) (a : Int) :
    l.foldl (fun sum r => sum + r.migrationWeight) a =
      a + (l.map CohortResult.migrationWeight).sum := by
  induction l generalizing a with
  | nil => simp
  | cons x xs ih => simp [ih, add_assoc]

/-- Inserting one result into the group list grows the held count by
one. -/
lemma addToGroups_len (gs : List (String × List CohortResult))
    (r : CohortResult) : groupsLen (addToGroups gs r) = groupsLen gs + 1 := by
  induction gs with
  | nil => simp [addToGroups, groupsLen]
  | cons g rest ih =>
    obtain ⟨k, rs⟩ := g
    rw [addToGroups]
    split
    · simp [groupsLen]
      omega
    · simp only [groupsLen, List.map_cons, List.sum_cons] at ih ⊢
      omega

/-- Inserting one result into the group list grows the held weight by the
result's migration weight. -/
lemma addToGroups_weight (gs : List (String × List CohortResult))
    (r : CohortResult) :
    groupsWeight (addToGroups gs r) = groupsWeight gs + r.migrationWeight := by
  induction gs with
  | nil => simp [addToGroups, groupsWeight]
  | cons g rest ih =>
    obtain ⟨k, rs⟩ := g
    rw [addToGroups]
    split
    · simp [groupsWeight]
      ring
    · simp only [groupsWeight, List.map_cons, List.sum_cons] at ih ⊢
      rw [ih]
      ring

/-- Folding a result list into a group list adds its length to the held
count. -/
lemma foldl_addToGroups_len (rs : List CohortResult)
    (gs : List (String × List CohortResult)) :
    groupsLen (rs.foldl addToGroups gs) = groupsLen gs + rs.length := by
  induction rs generalizing gs with
  | nil => simp
  | cons x xs ih =>
    rw [List.foldl_cons, ih, addToGroups_len]
    simp
    omega

/-- Folding a result list into a group list adds its total migration
weight to the held weight. -/
lemma foldl_addToGroups_weight (rs : List CohortResult)
    (gs : List (String × List CohortResult)) :
    groupsWeight (rs.foldl addToGroups gs) =
      groupsWeight gs + (rs.map CohortResult.migrationWeight).sum := by
  induction rs generalizing gs with
  | nil => simp
  | cons x xs ih =>
    rw [List.foldl_cons, ih, addToGroups_weight]
    simp
    ring

/-- The per-group summaries carry exactly the held counts. -/
lemma map_summarize_counts (gs : List (String × List CohortResult)) :
    ((gs.map summarizeGroup).map CohortSummary.repositoryCount).sum =
      groupsLen gs := by
  induction gs with
  | nil => rfl
  | cons g rest ih =>
    simp only [List.map_cons, List.sum_cons, groupsLen] at ih ⊢
    rw [ih]
    rfl

/-- The per-group summaries carry exactly the held weights. -/
lemma map_summarize_weights (gs : List (String × List CohortResult)) :
    ((gs.map summarizeGroup).map CohortSummary.totalWeight).sum =
      groupsWeight gs := by
  induction gs with
  | nil => rfl
  | cons g rest ih =>
    simp only [List.map_cons, List.sum_cons, groupsWeight] at ih ⊢
    rw [ih, summarizeGroup]
    simp [foldl_add_migrationWeight]

/-- C6: the cohort summaries partition the classified results: the
per-cohort repository counts sum to the number of input results, and the
per-cohort total weights sum to the total of all individual migration
weights. -/
theorem cohort_summaries_partition (results : List CohortResult) :
    ((generateCohortSummaries results).map CohortSummary.repositoryCount).sum
        = results.length ∧
    ((generateCohortSummaries results).map CohortSummary.totalWeight).sum
        = (results.map CohortResult.migrationWeight).sum := by
  have hperm := List.mergeSort_perm
    ((groupByCohort results).map summarizeGroup)
    (fun a b => decide (b.averageWeight ≤ a.averageWeight))
  constructor
  · have hsum := (hperm.map CohortSummary.repositoryCount).sum_eq
    rw [generateCohortSummaries] at *
    rw [hsum, map_summarize_counts, groupByCohort, foldl_addToGroups_len]
    simp [groupsLen]
  · have hsum := (hperm.map CohortSummary.totalWeight).sum_eq
    rw [generateCohortSummaries] at *
    rw [hsum, map_summarize_weights, groupByCohort, foldl_addToGroups_weight]
    simp [groupsWeight]

/-- C7: the projects category contributes its configured weight exactly
once: any two records differing only in the two projects counts have the
same migration weight as long as each record has at least one of the two
counts positive (one positive count or both). -/
theorem projects_contribute_once (repo : RepositoryAnalysis)
    (a b a2 b2 : String)
    (h1 : toNumber a > 0 ∨ toNumber b > 0)
    (h2 : toNumber a2 > 0 ∨ toNumber b2 > 0) :
    calculateMigrationWeight { repo with
        projects_linked_to_repo := a
        issues_linked_to_projects := b } =
      calculateMigrationWeight { repo with
        projects_linked_to_repo := a2
        issues_linked_to_projects := b2 } := by
  rw [calculateMigrationWeight_eq, calculateMigrationWeight_eq]
  show (if toNumber repo.app_installations > 0 then
      CONFIG.WEIGHTS.APP_INSTALLATIONS else 0)
    + (if toNumber repo.git_lfs_objects > 0 then
      CONFIG.WEIGHTS.GIT_LFS_OBJECTS else 0)
    + (if toNumber repo.repository_packages > 0 then
      CONFIG.WEIGHTS.PACKAGES else 0)
    + (if toNumber a > 0 ∨ toNumber b > 0 then
      CONFIG.WEIGHTS.PROJECTS else 0)
    + (if toNumber repo.repository_custom_properties > 0 then
      CONFIG.WEIGHTS.CUSTOM_PROPERTIES else 0)
    + (if toNumber repo.repository_rulesets > 0 then
      CONFIG.WEIGHTS.RULESETS else 0)
    + (if toNumber repo.repository_actions_secrets > 0 ∨
        toNumber repo.repository_dependabot_secrets > 0 then
      CONFIG.WEIGHTS.SECRETS else 0)
    + (if toNumber repo.repository_environments > 0 then
      CONFIG.WEIGHTS.ENVIRONMENTS else 0)
    + (if toNumber repo.repository_actions_self_hosted_runners > 0 then
      CONFIG.WEIGHTS.SELF_HOSTED_RUNNERS else 0)
    + (if toNumber repo.repository_webhooks > 0 then
      CONFIG.WEIGHTS.WEBHOOKS else 0)
    + (if toNumber repo.repository_discussions > 0 then
      CONFIG.WEIGHTS.DISCUSSIONS else 0)
    + (if toNumber repo.repository_deploy_keys > 0 then
      CONFIG.WEIGHTS.DEPLOY_KEYS else 0)
    + (if toNumber repo.repository_pages_customdomain > 0 then
      CONFIG.WEIGHTS.PAGES_CUSTOM_DOMAIN else 0)
    + (if toNumber repo.repository_releases_gt_5gb > 0 then
      CONFIG.WEIGHTS.RELEASES_LARGE else 0)
    + (if isArchived repo then CONFIG.WEIGHTS.IS_ARCHIVED else 0)
    + (if toBoolean repo.has_external_collaborators then
      CONFIG.WEIGHTS.EXTERNAL_COLLABORATORS else 0)
    + (if toBoolean repo.has_unmigratable then
      CONFIG.WEIGHTS.UNMIGRATABLE else 0)
    = (if toNumber repo.app_installations > 0 then
      CONFIG.WEIGHTS.APP_INSTALLATIONS else 0)
    + (if toNumber repo.git_lfs_objects > 0 then
      CONFIG.WEIGHTS.GIT_LFS_OBJECTS else 0)
    + (if toNumber repo.repository_packages > 0 then
      CONFIG.WEIGHTS.PACKAGES else 0)
    + (if toNumber a2 > 0 ∨ toNumber b2 > 0 then
      CONFIG.WEIGHTS.PROJECTS else 0)
    + (if toNumber repo.repository_custom_properties > 0 then
      CONFIG.WEIGHTS.CUSTOM_PROPERTIES else 0)
    + (if toNumber repo.repository_rulesets > 0 then
      CONFIG.WEIGHTS.RULESETS else 0)
    + (if toNumber repo.repository_actions_secrets > 0 ∨
        toNumber repo.repository_dependabot_secrets > 0 then
      CONFIG.WEIGHTS.SECRETS else 0)
    + (if toNumber repo.repository_environments > 0 then
      CONFIG.WEIGHTS.ENVIRONMENTS else 0)
    + (if toNumber repo.repository_actions_self_hosted_runners > 0 then
      CONFIG.WEIGHTS.SELF_HOSTED_RUNNERS else 0)
    + (if toNumber repo.repository_webhooks > 0 then
      CONFIG.WEIGHTS.WEBHOOKS else 0)
    + (if toNumber repo.repository_discussions > 0 then
      CONFIG.WEIGHTS.DISCUSSIONS else 0)
    + (if toNumber repo.repository_deploy_keys > 0 then
      CONFIG.WEIGHTS.DEPLOY_KEYS else 0)
    + (if toNumber repo.repository_pages_customdomain > 0 then
      CONFIG.WEIGHTS.PAGES_CUSTOM_DOMAIN else 0)
    + (if toNumber repo.repository_releases_gt_5gb > 0 then
      CONFIG.WEIGHTS.RELEASES_LARGE else 0)
    + (if isArchived repo then CONFIG.WEIGHTS.IS_ARCHIVED else 0)
    + (if toBoolean repo.has_external_collaborators then
      CONFIG.WEIGHTS.EXTERNAL_COLLABORATORS else 0)
    + (if toBoolean repo.has_unmigratable then
      CONFIG.WEIGHTS.UNMIGRATABLE else 0)
  rw [if_pos h1, if_pos h2]

/-- C7 witness: the single-contribution theorem applied at the blank
record, comparing one positive projects count against both counts
positive. -/
theorem projects_contribute_once_witness :
    calculateMigrationWeight { blankRepo with
        projects_linked_to_repo := "1"
        issues_linked_to_projects := "" } =
      calculateMigrationWeight { blankRepo with
        projects_linked_to_repo := "4"
        issues_linked_to_projects := "7" } :=
  projects_contribute_once blankRepo "1" "" "4" "7"
    (Or.inl (by decide)) (Or.inl (by decide))

/-- C8: the weight computation is total over all string field values and
never negative, and a numeric field that is empty, whitespace-only,
"null", "undefined", or without any parsable leading integer normalizes
to zero. -/
theorem weight_nonneg_and_malformed_numeric_zero :
    (∀ repo : RepositoryAnalysis, 0 ≤ calculateMigrationWeight repo) ∧
    toNumber "" = 0 ∧ toNumber "null" = 0 ∧ toNumber "undefined" = 0 ∧
    (∀ s : String, jsTrim s = "" → toNumber s = 0) ∧
    (∀ s : String, parseInt10 s = none → toNumber s = 0) := by
  refine ⟨?_, rfl, rfl, rfl, ?_, ?_⟩
  · intro repo
    rw [calculateMigrationWeight_eq]
    repeat' apply add_nonneg
    all_goals apply ite_weight_nonneg
    all_goals decide
  · intro s hs
    simp [toNumber, hs]
  · intro s hp
    simp [toNumber, hp]

/-- C8 witness: the totality theorem applied at the Maven-only record, at
the whitespace-only string and at an unparsable string. -/
theorem weight_nonneg_and_malformed_numeric_zero_witness :
    0 ≤ calculateMigrationWeight mavenOnlyRepo ∧
      toNumber "  " = 0 ∧ toNumber "abc" = 0 :=
  ⟨weight_nonneg_and_malformed_numeric_zero.1 mavenOnlyRepo,
    weight_nonneg_and_malformed_numeric_zero.2.2.2.2.1 "  " rfl,
    weight_nonneg_and_malformed_numeric_zero.2.2.2.2.2 "abc" rfl⟩

/-- A record flagged archived with the spelling "yes", and unmigratable
with the same spelling. -/
def yesSpellingRepo : RepositoryAnalysis :=
  { blankRepo with
      isArchived := "yes"
      has_unmigratable := "yes" }

/-- C9 counterexample: with the spelling "yes" on both fields, the record
counts as unmigratable (toBoolean accepts "yes") but not as archived
(isArchived accepts only "true", "TRUE", "1"): boolean normalization is
not the same for every boolean field. -/
theorem truthy_set_counterexample :
    toBoolean yesSpellingRepo.has_unmigratable = true ∧
      isArchived yesSpellingRepo = false := by
  exact ⟨rfl, rfl⟩

/-- C9 (amended): every boolean field read through toBoolean accepts the
truthy spellings "true", "1", "TRUE" and "yes"; the archived flag however
is read through isArchived, whose truthy set drops "yes" and "YES": a
record is archived exactly when its isArchived field passes toBoolean
with a spelling other than "yes"/"YES". -/
theorem truthy_sets_of_boolean_fields :
    (toBoolean "true" = true ∧ toBoolean "1" = true ∧
      toBoolean "TRUE" = true ∧ toBoolean "yes" = true) ∧
    ∀ repo : RepositoryAnalysis,
      isArchived repo =
        (toBoolean repo.isArchived && !(repo.isArchived == "yes") &&
          !(repo.isArchived == "YES")) := by
  refine ⟨⟨rfl, rfl, rfl, rfl⟩, ?_⟩
  intro repo
  rw [isArchived, toBoolean]
  by_cases h1 : repo.isArchived = "true" <;>
    by_cases h2 : repo.isArchived = "TRUE" <;>
    by_cases h3 : repo.isArchived = "1" <;>
    by_cases h4 : repo.isArchived = "yes" <;>
    by_cases h5 : repo.isArchived = "YES" <;>
    simp_all

/-- Concrete two-record input data set. -/
def sampleData : LoadedData :=
  { repositories := [archivedMacosRepo, mavenOnlyRepo, yesSpellingRepo] }

/-- C10: classification is deterministic and idempotent: two runs of the
pipeline on equal inputs produce equal result lists (cohort, weight,
reasons and summary record for record) and equal cohort summaries. -/
theorem classification_deterministic (d1 d2 : LoadedData) (h : d1 = d2) :
    analyzeRepositories d1 = analyzeRepositories d2 ∧
      generateCohortSummaries (analyzeRepositories d1) =
        generateCohortSummaries (analyzeRepositories d2) := by
  subst h
  exact ⟨rfl, rfl⟩

/-- C10 witness: the determinism theorem applied at the concrete sample
data set. -/
theorem classification_deterministic_witness :
    analyzeRepositories sampleData = analyzeRepositories sampleData ∧
      generateCohortSummaries (analyzeRepositories sampleData) =
        generateCohortSummaries (analyzeRepositories sampleData) :=
  classification_deterministic sampleData sampleData rfl

end CohortIdentifier
